import Mathlib

/-!
Verification of the case-management core of the justiceai backend.

Two worlds are embedded, mirroring the two implementations on disk:

* namespace `Svc` — the service layer (`backend/app/services/case_service.py`)
  together with the richer data model it is written against
  (`backend/app/backend-app-models.py`): statuses
  draft/open/in_progress/under_review/closed/archived/cancelled, the
  `CaseFile` rows with `created_by`/`assigned_to`/`closed_at`, and the
  operations `update_case_status`, `assign_case`, `create_case`,
  `_generate_case_number`, `_validate_status_transition`,
  `_auto_assign_case`.

* namespace `Rt` — the HTTP route layer (`backend/app/routes/cases.py`)
  together with the model file it imports (`backend/app/models.py`):
  statuses pending/in_progress/resolved/closed/archived, `Case` rows with
  `owner_id`/`assigned_judge_id`, and the handlers `get_cases`, `get_case`,
  `create_case`, `update_case`.

Timestamps are modelled as `Nat` and the clock is passed explicitly
(`now`).  A database is a record of lists of rows; SQLAlchemy commits are
modelled by returning the updated record, and a rollback by returning the
state that was last committed.  The service commits the business mutation
and the audit entry in two separate `db.commit()` calls; the flag
`auditFails` injects a failure of the second commit so that the behaviour
on an audit-write failure is observable.
-/

namespace Svc

/-- Case statuses of `backend-app-models.py` (`CaseStatus`): the richer
enumeration used by the service layer.  The Python member `OPEN` is named
`open_` because `open` is reserved in Lean. -/
inductive CaseStatus where
  | draft
  | open_
  | in_progress
  | under_review
  | closed
  | archived
  | cancelled
deriving DecidableEq, Repr

/-- User roles of `backend-app-models.py` (`UserRole`). -/
inductive UserRole where
  | admin
  | judge
  | lawyer
  | clerk
  | citizen
deriving DecidableEq, Repr

/-- A `users` row, restricted to the fields the service operations read. -/
structure User where
  id : Nat
  role : UserRole
  is_active : Bool
deriving DecidableEq, Repr

/-- A `case_files` row, restricted to the fields the verified operations
read or write (`court_name`, `judge_name`, `priority`, `metadata` and
`created_at` are not consulted by any claim and are omitted). -/
structure CaseFile where
  id : Nat
  case_number : String
  title : String
  description : Option String
  case_type : Option String
  status : CaseStatus
  created_by : Nat
  assigned_to : Option Nat
  closed_at : Option Nat
  updated_at : Nat
deriving DecidableEq, Repr

/-- An `audit_logs` row, restricted to the identifying fields. -/
structure AuditLog where
  action : String
  resource_type : String
  resource_id : Nat
  user_id : Nat
deriving DecidableEq, Repr

/-- The database state seen by the service layer. -/
structure DB where
  users : List User
  case_files : List CaseFile
  audit_logs : List AuditLog
deriving DecidableEq, Repr

/-- `CaseService._validate_status_transition`: the allowed-transition
table, verbatim from `case_service.py` lines 348-364. -/
def validTransition (s t : CaseStatus) : Bool :=
  match s with
  | .draft => t == .open_ || t == .cancelled
  | .open_ => t == .in_progress || t == .closed || t == .cancelled
  | .in_progress => t == .under_review || t == .closed || t == .cancelled
  | .under_review => t == .closed || t == .in_progress
  | .closed => t == .archived
  | .archived => t == .open_
  | .cancelled => false

/-- The in-place mutation `update_case_status` performs on the found row
once the transition is validated (lines 87-94): set the status, stamp
`closed_at` when entering `closed`, bump `updated_at` on `draft` to
`open`.  No branch ever clears `closed_at`. -/
def applyStatus (now : Nat) (t : CaseStatus) (c : CaseFile) : CaseFile :=
  { c with
    status := t
    closed_at := if t == .closed then some now else c.closed_at
    updated_at := if t == .open_ && c.status == .draft then now else c.updated_at }

/-- `CaseService.update_case_status` (lines 69-117).  Returns the boolean
the coroutine returns, paired with the database state that remains
committed.  A missing case returns `false`; an invalid transition raises
`ValueError`, which the `except` catches after a rollback, so the state is
unchanged.  On a valid transition the mutation is committed first
(line 96); the audit row is added and committed separately (lines 99-109).
`auditFails` injects a failure of that second commit: the `except` then
rolls back the uncommitted audit row and returns `false`, but the first
commit has already persisted the status change. -/
def updateCaseStatus (auditFails : Bool) (case_id : Nat) (new_status : CaseStatus)
    (user_id now : Nat) (db : DB) : Bool × DB :=
  match db.case_files.find? (fun c => c.id == case_id) with
  | none => (false, db)
  | some c =>
    if validTransition c.status new_status then
      let db1 : DB :=
        { db with case_files :=
            db.case_files.map (fun x => if x.id == case_id then applyStatus now new_status x else x) }
      if auditFails then
        (false, db1)
      else
        (true, { db1 with audit_logs :=
            db1.audit_logs ++ [⟨"CASE_STATUS_UPDATE", "case", case_id, user_id⟩] })
    else
      (false, db)

/-- `CaseService.assign_case` (lines 119-162).  The assignee must exist
and be active; the code performs no role check.  On `ValueError` the
`except` rolls back and returns `false` with the state unchanged. -/
def assignCase (case_id assignee_id user_id now : Nat) (db : DB) : Bool × DB :=
  match db.case_files.find? (fun c => c.id == case_id) with
  | none => (false, db)
  | some _ =>
    match db.users.find? (fun u => u.id == assignee_id) with
    | none => (false, db)
    | some a =>
      if a.is_active then
        let db1 : DB :=
          { db with case_files :=
              db.case_files.map (fun x =>
                if x.id == case_id then { x with assigned_to := some assignee_id, updated_at := now } else x) }
        (true, { db1 with audit_logs :=
            db1.audit_logs ++ [⟨"CASE_ASSIGN", "case", case_id, user_id⟩] })
      else
        (false, db)

/-- Prefix test on character lists (the `LIKE "prefix%"` filter of the
number query), written with structural recursion so that it evaluates
inside the kernel. -/
def listStartsWith : List Char → List Char → Bool
  | _, [] => true
  | [], _ :: _ => false
  | c :: cs, p :: ps => c == p && listStartsWith cs ps

/-- The characters after the last dash, as Python `s.split("-")[-1]`:
with no dash the whole string. -/
def afterLastDash (cs : List Char) : List Char :=
  (cs.reverse.takeWhile (fun c => !(c == '-'))).reverse

/-- Python `int` on the digit strings the system produces: all-digit,
non-empty input parses (leading zeros allowed, so "0001" is 1); anything
else raises `ValueError`, modelled as `none`. -/
def parseDigits? (cs : List Char) : Option Nat :=
  if cs.isEmpty || !cs.all Char.isDigit then none
  else some (cs.foldl (fun acc c => acc * 10 + (c.toNat - 48)) 0)

/-- Zero-padding to width 4, as Python `f"{n:04d}"`: numbers with fewer
than four digits are left-padded with zeros, longer numbers unchanged. -/
def pad4 (n : Nat) : String :=
  let s := Nat.toDigits 10 n
  String.mk (List.replicate (4 - s.length) '0' ++ s)

/-- The names imported (or otherwise bound at module level before the
service methods run) in `case_service.py` lines 1-12: `UserRole` is not
among them, although `_auto_assign_case` references it. -/
def caseServiceModuleNames : List String :=
  ["logging", "List", "Optional", "Dict", "Any", "datetime", "timedelta",
   "Session", "func", "and_", "or_", "CaseFile", "CaseStatus", "CaseType",
   "User", "AuditLog", "Document", "settings", "logger", "CaseService"]

/-- Whether a global name used inside `case_service.py` resolves at
runtime; an unresolved name raises `NameError`. -/
def nameResolves (n : String) : Bool :=
  caseServiceModuleNames.contains n

/-- Number of cases the auto-assignment loop counts against a candidate
(lines 381-391): cases assigned to the user whose status is open,
in progress or under review. -/
def pendingCount (db : DB) (uid : Nat) : Nat :=
  (db.case_files.filter (fun c =>
    c.assigned_to == some uid &&
      (c.status == .open_ || c.status == .in_progress || c.status == .under_review))).length

/-- Python `min(d, key=d.get)` over an insertion-ordered dict: the first
key (in list order) whose value is minimal.  Strict `<` keeps the earlier
entry on ties, exactly as `min` does. -/
def argminFirst : List (Nat × Nat) → Option Nat
  | [] => none
  | p :: rest => some ((rest.foldl (fun acc q => if q.2 < acc.2 then q else acc) p).1)

/-- `CaseService._auto_assign_case` (lines 366-401).  The candidate query
on line 373 references the global name `UserRole`, which `case_service.py`
never imports, so evaluating the filter raises `NameError`; the enclosing
`except` catches every exception and only logs it, so the call returns
normally with the database unchanged.  The branch guarded by
`nameResolves "UserRole"` embeds the selection logic the body would run if
the name resolved. -/
def autoAssignCase (db : DB) (case_id : Nat) : DB :=
  if nameResolves "UserRole" then
    let available := db.users.filter (fun u =>
      u.is_active && (u.role == .judge || u.role == .clerk))
    match available with
    | [] => db
    | _ =>
      let user_case_counts := available.map (fun u => (u.id, pendingCount db u.id))
      match argminFirst user_case_counts with
      | none => db
      | some best_user_id =>
        { db with case_files :=
            db.case_files.map (fun x =>
              if x.id == case_id then { x with assigned_to := some best_user_id } else x) }
  else
    db

/-- The fields of the `case_data` dict that `CaseService.create_case`
reads (title, case type, optional description, session date, requested
assignee). -/
structure CaseData where
  title : String
  description : Option String
  case_type : Option String
  court_session_date : Option Nat
  assigned_to : Option Nat
deriving DecidableEq, Repr

/-- `CaseService._validate_case_data` (lines 329-346) as a boolean:
`title` and `case_type` must be present and non-empty, the title at least
5 characters, and a session date, when given, not in the past. -/
def validateCaseData (now : Nat) (d : CaseData) : Bool :=
  !(d.title == "") &&
  (match d.case_type with
   | some ct => !(ct == "")
   | none => false) &&
  decide (5 ≤ d.title.length) &&
  (match d.court_session_date with
   | some sd => !(decide (sd < now))
   | none => true)

/-- Errors `CaseService.create_case` re-raises to its caller. -/
inductive SvcErr where
  | validationError
  | integrityError
deriving DecidableEq, Repr

/-- The primary key the next inserted `case_files` row receives. -/
def nextCaseId (db : DB) : Nat :=
  (db.case_files.foldl (fun m c => max m c.id) 0) + 1

/-- `CaseService._generate_case_number` (lines 304-327): take the case
with the greatest id among those whose number starts with `CAS-` plus
the given date string, parse the digits after its last dash, add one and zero-pad
to four digits; with no such case start at 1.  If the parse fails
(`ValueError` from `int`), the `except` falls back to a timestamp-based
number, modelled by the `ts` argument. -/
def generateCaseNumber (today ts : String) (db : DB) : String :=
  let pfx := "CAS-" ++ today
  let last_case := (db.case_files.filter (fun c => listStartsWith c.case_number.data pfx.data)).foldl
    (fun acc c =>
      match acc with
      | none => some c
      | some b => if b.id < c.id then some c else some b)
    none
  match last_case with
  | some lc =>
    match parseDigits? (afterLastDash lc.case_number.data) with
    | some last_number => pfx ++ "-" ++ pad4 (last_number + 1)
    | none => "CAS-" ++ ts
  | none => pfx ++ "-" ++ pad4 1

/-- `self.auto_assign_enabled` as initialised in `CaseService.__init__`. -/
def autoAssignEnabled : Bool := true

/-- `CaseService.create_case` (lines 24-67), returning the result the
coroutine yields paired with the number of times the sequence computation
(`_generate_case_number`) ran.  The number is generated exactly once; a
validation failure re-raises `ValueError`; the commit on line 54 raises
`IntegrityError` when the generated number already exists, and the
`except` rolls the insert back and re-raises — there is no retry.  After a
successful commit, auto-assignment runs when no assignee was given. -/
def createCase (today ts : String) (now : Nat) (d : CaseData) (creator_id : Nat)
    (db : DB) : Except SvcErr (CaseFile × DB) × Nat :=
  let case_number := generateCaseNumber today ts db
  if validateCaseData now d then
    if db.case_files.any (fun c => c.case_number == case_number) then
      (.error .integrityError, 1)
    else
      let c : CaseFile :=
        { id := nextCaseId db
          case_number := case_number
          title := d.title
          description := d.description
          case_type := d.case_type
          status := .draft
          created_by := creator_id
          assigned_to := d.assigned_to
          closed_at := none
          updated_at := now }
      let db1 : DB := { db with case_files := db.case_files ++ [c] }
      let db2 := if autoAssignEnabled && d.assigned_to == none then autoAssignCase db1 c.id else db1
      (.ok (c, db2), 1)
  else
    (.error .validationError, 1)

end Svc

namespace Rt

/-- Case statuses of `backend/app/models.py` (`CaseStatus`): the
enumeration the route layer is written against. -/
inductive CaseStatus where
  | pending
  | in_progress
  | resolved
  | closed
  | archived
deriving DecidableEq, Repr

/-- User roles compared against in `routes/cases.py`.  The route handlers
dispatch with equality chains ending in an `else`, so a role value outside
the five declared members — the "future/unknown roles" the else branches
exist for — is modelled by the extra constructor `other`. -/
inductive UserRole where
  | admin
  | judge
  | lawyer
  | clerk
  | citizen
  | other
deriving DecidableEq, Repr

/-- A `users` row, restricted to the fields the route handlers read. -/
structure User where
  id : Nat
  role : UserRole
deriving DecidableEq, Repr

/-- A `cases` row of `models.py`. -/
structure Case where
  id : Nat
  case_number : String
  title : String
  description : Option String
  status : CaseStatus
  owner_id : Nat
  assigned_judge_id : Option Nat
deriving DecidableEq, Repr

/-- An `audit_logs` row of `models.py`, restricted to the fields the case
routes set. -/
structure AuditLog where
  user_id : Nat
  action : String
  resource_type : String
  resource_id : Nat
  status : String
deriving DecidableEq, Repr

/-- The database state seen by the route layer. -/
structure DB where
  users : List User
  cases : List Case
  audit_logs : List AuditLog
deriving DecidableEq, Repr

/-- `HTTPException` outcomes raised by the case routes. -/
inductive HErr where
  | notFound
  | forbidden
  | badRequest
deriving DecidableEq, Repr

/-- The role-based filter `get_cases` applies (lines 54-63): lawyers see
cases they own, judges cases assigned to them, clerks and admins
everything, and every other role — citizens and unrecognized roles alike —
falls into the final `else`, which filters to cases the user owns. -/
def roleFilter (u : User) (cs : List Case) : List Case :=
  match u.role with
  | .lawyer => cs.filter (fun c => c.owner_id == u.id)
  | .judge => cs.filter (fun c => c.assigned_judge_id == some u.id)
  | .clerk => cs
  | .admin => cs
  | _ => cs.filter (fun c => c.owner_id == u.id)

/-- `get_cases` (lines 42-99): role filter, optional status filter, then
offset/limit pagination.  It returns the matching rows. -/
def getCases (skip limit : Nat) (status_q : Option CaseStatus) (u : User) (db : DB) :
    List Case :=
  let q := roleFilter u db.cases
  let q2 : List Case :=
    match status_q with
    | some s => q.filter (fun c => c.status == s)
    | none => q
  (q2.drop skip).take limit

/-- `get_case` (lines 101-170): 404 when the case is missing, then the
role chain — admin and clerk always pass, lawyers and citizens only for
cases they own, judges only for cases assigned to them, and any other
role is denied. -/
def getCase (case_id : Nat) (u : User) (db : DB) : Except HErr Case :=
  match db.cases.find? (fun c => c.id == case_id) with
  | none => .error .notFound
  | some c =>
    match u.role with
    | .admin => .ok c
    | .clerk => .ok c
    | .lawyer => if c.owner_id == u.id then .ok c else .error .forbidden
    | .judge => if c.assigned_judge_id == some u.id then .ok c else .error .forbidden
    | .citizen => if c.owner_id == u.id then .ok c else .error .forbidden
    | .other => .error .forbidden

/-- The request body of `POST /cases` (`CaseCreate`); the pydantic default
for `status` is `pending` and for `assigned_judge_id` is `None`. -/
structure CaseCreate where
  case_number : String
  title : String
  description : Option String
  status : CaseStatus
  assigned_judge_id : Option Nat
deriving DecidableEq, Repr

/-- `can_set_sensitive_fields` of `create_case` (lines 188-192). -/
def canSetSensitive (r : UserRole) : Bool :=
  r == .admin || r == .clerk || r == .judge

/-- The primary key the next inserted `cases` row receives. -/
def nextId (db : DB) : Nat :=
  (db.cases.foldl (fun m c => max m c.id) 0) + 1

/-- `create_case` (lines 172-270): reject a duplicate case number with
400; for roles outside admin/clerk/judge reject a non-default status or a
requested judge with 403; for privileged roles validate that a requested
judge exists with role judge; then insert the row (owner = the caller)
and commit, and append a success audit row in a second commit. -/
def createCase (d : CaseCreate) (u : User) (db : DB) : Except HErr (Case × DB) :=
  if db.cases.any (fun c => c.case_number == d.case_number) then
    .error .badRequest
  else
    let canSet := canSetSensitive u.role
    if !canSet && !(d.status == .pending) then
      .error .forbidden
    else if !canSet && !(d.assigned_judge_id == none) then
      .error .forbidden
    else
      let judge_check : Except HErr (Option Nat) :=
        match d.assigned_judge_id with
        | some j =>
          if canSet then
            if db.users.any (fun x => x.id == j && x.role == .judge) then .ok (some j)
            else .error .badRequest
          else .ok none
        | none => .ok none
      match judge_check with
      | .error e => .error e
      | .ok assigned_judge_id =>
        let nc : Case :=
          { id := nextId db
            case_number := d.case_number
            title := d.title
            description := d.description
            status := if canSet then d.status else .pending
            owner_id := u.id
            assigned_judge_id := assigned_judge_id }
        let db1 : DB := { db with cases := db.cases ++ [nc] }
        let db2 : DB := { db1 with audit_logs :=
          db1.audit_logs ++ [⟨u.id, "create_case", "case", nc.id, "success"⟩] }
        .ok (nc, db2)

/-- The request body of `PUT /cases/{id}` (`CaseUpdate`): every field
optional. -/
structure CaseUpdate where
  title : Option String
  description : Option String
  status : Option CaseStatus
  assigned_judge_id : Option Nat
deriving DecidableEq, Repr

/-- The role chain of `update_case` (lines 288-331): `some b` means access
is granted with `b` recording `can_update_sensitive_fields`; `none` means
the chain raises 403. -/
def updateAccess (u : User) (c : Case) : Option Bool :=
  match u.role with
  | .admin => some true
  | .clerk => some true
  | .judge => if c.assigned_judge_id == some u.id then some true else none
  | .lawyer => if c.owner_id == u.id then some false else none
  | .citizen => if c.owner_id == u.id then some false else none
  | .other => none

/-- `update_case` (lines 272-408): 404 when missing; the role chain; a 403
when an unprivileged caller submits status or judge; then title and
description are applied, and — with no transition validation of any kind —
a submitted status is stored directly, and a submitted judge id is
validated (only when nonzero, mirroring the Python truthiness test) and
stored.  The mutation and the audit row are committed in two steps. -/
def updateCase (case_id : Nat) (d : CaseUpdate) (u : User) (db : DB) :
    Except HErr (Case × DB) :=
  match db.cases.find? (fun c => c.id == case_id) with
  | none => .error .notFound
  | some c =>
    match updateAccess u c with
    | none => .error .forbidden
    | some canSens =>
      if !canSens && (!(d.status == none) || !(d.assigned_judge_id == none)) then
        .error .forbidden
      else
        let judge_check : Except HErr (Option Nat) :=
          if canSens then
            match d.assigned_judge_id with
            | some j =>
              if !(j == 0) then
                if db.users.any (fun x => x.id == j && x.role == .judge) then .ok (some j)
                else .error .badRequest
              else .ok (some j)
            | none => .ok c.assigned_judge_id
          else .ok c.assigned_judge_id
        match judge_check with
        | .error e => .error e
        | .ok assigned_judge_id =>
          let new_title := d.title.getD c.title
          let new_description : Option String :=
            match d.description with
            | some s => some s
            | none => c.description
          let new_status := if canSens then d.status.getD c.status else c.status
          let c2 : Case :=
            { c with
              title := new_title
              description := new_description
              status := new_status
              assigned_judge_id := assigned_judge_id }
          let db1 : DB := { db with cases := db.cases.map (fun x => if x.id == case_id then c2 else x) }
          let db2 : DB := { db1 with audit_logs :=
            db1.audit_logs ++ [⟨u.id, "update_case", "case", case_id, "success"⟩] }
          .ok (c2, db2)

end Rt

/-- Whether a request succeeded (`Except.ok`). -/
def isOkE {e a : Type} : Except e a → Bool
  | .ok _ => true
  | .error _ => false

/-- The stored status a successful `update_case` response reports; `none`
on an error response. -/
def statusOfResult (r : Except Rt.HErr (Rt.Case × Rt.DB)) : Option Rt.CaseStatus :=
  match r with
  | .ok p => some p.1.status
  | .error _ => none

/-- The check `assign_case` actually performs on the assignee: present
and active, with no condition on the role. -/
def assigneeOk (db : Svc.DB) (assignee_id : Nat) : Bool :=
  match db.users.find? (fun u => u.id == assignee_id) with
  | some a => a.is_active
  | none => false

/-- An active judge with id 2. -/
def judgeUser2 : Svc.User := ⟨2, .judge, true⟩

/-- A draft case with id 1, created by user 7, unassigned. -/
def draftCase1 : Svc.CaseFile :=
  ⟨1, "CAS-20250101-0001", "Robo agravado", none, some "criminal", .draft, 7, none, none, 0⟩

/-- Service database: one active judge, one draft case, no audit rows. -/
def svcDraftDb : Svc.DB := ⟨[judgeUser2], [draftCase1], []⟩

/-- An archived case whose `closed_at` was stamped at time 5. -/
def archivedCase1 : Svc.CaseFile :=
  ⟨1, "CAS-20240101-0001", "Caso antiguo", none, some "civil", .archived, 7, none, some 5, 0⟩

/-- Service database holding only the archived case. -/
def svcArchivedDb : Svc.DB := ⟨[], [archivedCase1], []⟩

/-- An active citizen with id 2. -/
def citizenUser2 : Svc.User := ⟨2, .citizen, true⟩

/-- Service database for the assignment counterexample: the only user is
an active citizen, a role not eligible for assignment. -/
def svcAssignDb : Svc.DB := ⟨[citizenUser2], [draftCase1], []⟩

/-- Two same-day cases whose id order is opposite to their sequence
order: the row with the greater id carries the smaller sequence number,
so the next generated number collides with the other row, and the
collision repeats on any recomputation over the same state. -/
def collideCaseA : Svc.CaseFile :=
  ⟨1, "CAS-20250101-0002", "Caso dos", none, some "civil", .draft, 7, none, none, 0⟩

/-- Companion row of `collideCaseA`; see there. -/
def collideCaseB : Svc.CaseFile :=
  ⟨2, "CAS-20250101-0001", "Caso uno", none, some "civil", .draft, 7, none, none, 0⟩

/-- Service database in which number generation collides. -/
def svcCollideDb : Svc.DB := ⟨[], [collideCaseA, collideCaseB], []⟩

/-- A creation payload passing `_validate_case_data`. -/
def okCaseData : Svc.CaseData := ⟨"Robo agravado", none, some "criminal", none, none⟩

/-- A route-layer user carrying a role outside the five recognized ones. -/
def otherUser1 : Rt.User := ⟨1, .other⟩

/-- A pending case owned by route-layer user 1. -/
def rtOwnedCase1 : Rt.Case := ⟨1, "C-1", "titulo", none, .pending, 1, none⟩

/-- Route database: the unknown-role user owns the single case. -/
def rtOtherDb : Rt.DB := ⟨[otherUser1], [rtOwnedCase1], []⟩

/-- A route-layer admin with id 9. -/
def adminUser9 : Rt.User := ⟨9, .admin⟩

/-- An in-progress case owned by route-layer user 1. -/
def rtInProgressCase1 : Rt.Case := ⟨1, "C-1", "titulo", none, .in_progress, 1, none⟩

/-- Route database for the transition counterexample. -/
def rtAdminDb : Rt.DB := ⟨[adminUser9], [rtInProgressCase1], []⟩

/-- A route-layer lawyer with id 3. -/
def lawyerUser3 : Rt.User := ⟨3, .lawyer⟩

/-- Claim C10: every call to `CaseService._auto_assign_case` leaves the
database — in particular every `assigned_to` field — unchanged and
returns normally to its caller: the candidate query references the
global name `UserRole`, which `case_service.py` never imports, so the
lookup raises `NameError`, and the surrounding handler catches every
exception and only logs it.  Hence auto-assignment during `create_case`
never assigns any user. -/
theorem auto_assign_never_assigns (db : Svc.DB) (case_id : Nat) :
    Svc.autoAssignCase db case_id = db := by
  have h : Svc.nameResolves "UserRole" = false := by decide
  simp [Svc.autoAssignCase, h]

/-- Claim C6 (code bug, failing input): `svcDraftDb` has a non-empty
eligible candidate set — exactly one active judge, with zero load — yet
`_auto_assign_case` selects nobody and the case stays unassigned,
because the unresolved name `UserRole` aborts the candidate query and
the exception is swallowed.  The claimed strictly-minimal-load selection
therefore never happens. -/
theorem auto_assign_ignores_minimal_load_candidate :
    Svc.nameResolves "UserRole" = false ∧
      (svcDraftDb.users.filter (fun u =>
        u.is_active && (u.role == Svc.UserRole.judge || u.role == Svc.UserRole.clerk))).length = 1 ∧
      Svc.autoAssignCase svcDraftDb 1 = svcDraftDb := by
  decide

/-- Claim C4: an attempted transition along an edge not in the table
fails (the raised `ValueError` is caught and `update_case_status`
returns `false`) and the stored case row — in particular its status —
is exactly what it was before the call: the whole database is returned
unchanged. -/
theorem invalid_transition_leaves_row_untouched (db : Svc.DB) (case_id : Nat)
    (new_status : Svc.CaseStatus) (user_id now : Nat) (c : Svc.CaseFile)
    (hfind : db.case_files.find? (fun x => x.id == case_id) = some c)
    (hinv : Svc.validTransition c.status new_status = false) :
    Svc.updateCaseStatus false case_id new_status user_id now db = (false, db) := by
  simp [Svc.updateCaseStatus, hfind, hinv]

/-- Witness for `invalid_transition_leaves_row_untouched`: the direct
attempt draft to closed of spec scenario 6, on the concrete database. -/
theorem invalid_transition_witness :
    Svc.validTransition Svc.CaseStatus.draft .closed = false ∧
      Svc.updateCaseStatus false 1 .closed 9 100 svcDraftDb = (false, svcDraftDb) :=
  ⟨by decide,
   invalid_transition_leaves_row_untouched svcDraftDb 1 .closed 9 100 draftCase1
     (by decide) (by decide)⟩

/-- Claim C3 (counterexample): on the concrete database, a valid draft
to open transition whose audit insert fails yields a state in which the
status change IS persisted (the first commit already ran) while no
audit row exists — contradicting the claim that the mutation cannot
persist without its audit entry. -/
theorem audit_failure_mutation_persists :
    (Svc.updateCaseStatus true 1 .open_ 9 100 svcDraftDb).1 = false ∧
      ((Svc.updateCaseStatus true 1 .open_ 9 100 svcDraftDb).2.case_files.map
        (fun c => c.status)) = [Svc.CaseStatus.open_] ∧
      (Svc.updateCaseStatus true 1 .open_ 9 100 svcDraftDb).2.audit_logs = [] := by
  decide

/-- Claim C3 (amended): the business mutation and the audit insert run
in two separate commits.  When the audit insert fails after a valid
transition, the operation reports failure and no audit row is stored,
but the status mutation remains committed. -/
theorem audit_commit_is_separate (db : Svc.DB) (case_id : Nat)
    (new_status : Svc.CaseStatus) (user_id now : Nat) (c : Svc.CaseFile)
    (hfind : db.case_files.find? (fun x => x.id == case_id) = some c)
    (hval : Svc.validTransition c.status new_status = true) :
    (Svc.updateCaseStatus true case_id new_status user_id now db).1 = false ∧
      (Svc.updateCaseStatus true case_id new_status user_id now db).2.audit_logs
        = db.audit_logs ∧
      (Svc.updateCaseStatus true case_id new_status user_id now db).2.case_files
        = db.case_files.map (fun x =>
            if x.id == case_id then Svc.applyStatus now new_status x else x) := by
  simp [Svc.updateCaseStatus, hfind, hval]

/-- Witness for `audit_commit_is_separate` at the concrete database. -/
theorem audit_commit_is_separate_witness :
    ((Svc.updateCaseStatus true 1 .open_ 9 100 svcDraftDb).1 = false ∧
      (Svc.updateCaseStatus true 1 .open_ 9 100 svcDraftDb).2.audit_logs
        = svcDraftDb.audit_logs ∧
      (Svc.updateCaseStatus true 1 .open_ 9 100 svcDraftDb).2.case_files
        = svcDraftDb.case_files.map (fun x =>
            if x.id == 1 then Svc.applyStatus 100 Svc.CaseStatus.open_ x else x)) :=
  audit_commit_is_separate svcDraftDb 1 .open_ 9 100 draftCase1 (by decide) (by decide)

/-- Claim C9 (counterexample): the reopen transition archived to open
succeeds on the concrete database but `closed_at` keeps its stamp 5 —
the code never clears it, contradicting the claim that this transition
clears `closed_at`. -/
theorem archived_reopen_keeps_closed_at :
    (Svc.updateCaseStatus false 1 .open_ 9 100 svcArchivedDb).1 = true ∧
      ((Svc.updateCaseStatus false 1 .open_ 9 100 svcArchivedDb).2.case_files.map
        (fun c => c.closed_at)) = [some 5] := by
  decide

/-- Claim C9 (amended): entering closed stamps `closed_at` with the
current time; every other target status — including the reopen archived
to open, which the original claim said clears the field, and closed to
archived — leaves `closed_at` unchanged; and a successful
`update_case_status` stores exactly `applyStatus` on the addressed row. -/
theorem closed_at_stamping :
    (∀ (now : Nat) (c : Svc.CaseFile),
      (Svc.applyStatus now .closed c).closed_at = some now) ∧
    (∀ (now : Nat) (t : Svc.CaseStatus) (c : Svc.CaseFile), ¬ t = .closed →
      (Svc.applyStatus now t c).closed_at = c.closed_at) ∧
    (∀ (db : Svc.DB) (case_id : Nat) (new_status : Svc.CaseStatus)
      (user_id now : Nat) (c : Svc.CaseFile),
      db.case_files.find? (fun x => x.id == case_id) = some c →
      Svc.validTransition c.status new_status = true →
      (Svc.updateCaseStatus false case_id new_status user_id now db).2.case_files
        = db.case_files.map (fun x =>
            if x.id == case_id then Svc.applyStatus now new_status x else x)) := by
  refine ⟨?_, ?_, ?_⟩
  · intro now c
    simp [Svc.applyStatus]
  · intro now t c ht
    simp [Svc.applyStatus, ht]
  · intro db case_id new_status user_id now c hfind hval
    simp [Svc.updateCaseStatus, hfind, hval]

/-- Witness for `closed_at_stamping`: stamping on entering closed,
preservation on the reopen edge, and the stored-row characterization on
the concrete archived database. -/
theorem closed_at_stamping_witness :
    (Svc.applyStatus 100 .closed draftCase1).closed_at = some 100 ∧
      (Svc.applyStatus 100 .open_ archivedCase1).closed_at = archivedCase1.closed_at ∧
      (Svc.updateCaseStatus false 1 .open_ 9 100 svcArchivedDb).2.case_files
        = svcArchivedDb.case_files.map (fun x =>
            if x.id == 1 then Svc.applyStatus 100 Svc.CaseStatus.open_ x else x) :=
  ⟨closed_at_stamping.1 100 draftCase1,
   closed_at_stamping.2.1 100 .open_ archivedCase1 (by decide),
   closed_at_stamping.2.2 svcArchivedDb 1 .open_ 9 100 archivedCase1 (by decide) (by decide)⟩

/-- Claim C2 (counterexample): the route handler `update_case` is a code
path that changes a case status with no transition check at all.  On the
concrete database an admin moves the case along in_progress to archived
— an edge absent from the transition table — and the call succeeds with
the new status stored. -/
theorem route_update_skips_transition_table :
    Svc.validTransition Svc.CaseStatus.in_progress .archived = false ∧
      statusOfResult (Rt.updateCase 1 ⟨none, none, some .archived, none⟩ adminUser9 rtAdminDb)
        = some Rt.CaseStatus.archived := by
  decide

/-- Claim C2 (amended): `update_case_status` in the service succeeds iff
the requested edge is in the transition table (given the case exists),
but this enforcement is confined to that path: the route-level
`update_case` stores any submitted status for an authorized caller
(here: an admin) without consulting any transition table. -/
theorem update_status_iff_table_service_only :
    (∀ (db : Svc.DB) (case_id : Nat) (new_status : Svc.CaseStatus)
      (user_id now : Nat) (c : Svc.CaseFile),
      db.case_files.find? (fun x => x.id == case_id) = some c →
      ((Svc.updateCaseStatus false case_id new_status user_id now db).1 = true
        ↔ Svc.validTransition c.status new_status = true)) ∧
    (∀ (db : Rt.DB) (u : Rt.User) (case_id : Nat) (t : Rt.CaseStatus) (c : Rt.Case),
      u.role = .admin → db.cases.find? (fun x => x.id == case_id) = some c →
      statusOfResult (Rt.updateCase case_id ⟨none, none, some t, none⟩ u db) = some t) := by
  constructor
  · intro db case_id new_status user_id now c hfind
    cases hval : Svc.validTransition c.status new_status <;>
      simp [Svc.updateCaseStatus, hfind, hval]
  · intro db u case_id t c hrole hfind
    simp [Rt.updateCase, hfind, Rt.updateAccess, hrole, statusOfResult]

/-- Witness for `update_status_iff_table_service_only` at concrete
inputs: the service iff on the draft database and the route behaviour on
the admin database. -/
theorem update_status_iff_table_witness :
    ((Svc.updateCaseStatus false 1 .open_ 9 100 svcDraftDb).1 = true
      ↔ Svc.validTransition draftCase1.status .open_ = true) ∧
      statusOfResult (Rt.updateCase 1 ⟨none, none, some .pending, none⟩ adminUser9 rtAdminDb)
        = some Rt.CaseStatus.pending :=
  ⟨update_status_iff_table_service_only.1 svcDraftDb 1 .open_ 9 100 draftCase1 (by decide),
   update_status_iff_table_service_only.2 rtAdminDb adminUser9 1 .pending rtInProgressCase1
     rfl (by decide)⟩

/-- Claim C8 (counterexample): on the concrete database the assignee
with id 2 exists and is active but is a citizen — a role not eligible
for assignment — yet `assign_case` succeeds and stores the assignment,
where the claim requires a `ValidationError` and an unchanged case. -/
theorem assign_citizen_succeeds_despite_role :
    citizenUser2.role = Svc.UserRole.citizen ∧
      (Svc.assignCase 1 2 9 100 svcAssignDb).1 = true ∧
      ((Svc.assignCase 1 2 9 100 svcAssignDb).2.case_files.map
        (fun c => c.assigned_to)) = [some 2] := by
  decide

/-- Claim C8 (amended): given the case exists, `assign_case` succeeds
iff the assignee exists and is active — the code checks no role
eligibility at all — and on a missing or inactive assignee the raised
`ValueError` is caught, `false` is returned and the database (in
particular the assignee field of the case) is unchanged. -/
theorem assign_case_checks_existence_and_active_only (db : Svc.DB)
    (case_id assignee_id user_id now : Nat) (c : Svc.CaseFile)
    (hfind : db.case_files.find? (fun x => x.id == case_id) = some c) :
    ((Svc.assignCase case_id assignee_id user_id now db).1 = true
      ↔ assigneeOk db assignee_id = true) ∧
    (assigneeOk db assignee_id = false →
      Svc.assignCase case_id assignee_id user_id now db = (false, db)) := by
  cases hu : db.users.find? (fun u => u.id == assignee_id) with
  | none => simp [Svc.assignCase, hfind, hu, assigneeOk]
  | some a =>
    cases ha : a.is_active <;> simp [Svc.assignCase, hfind, hu, assigneeOk, ha]

/-- Witness for `assign_case_checks_existence_and_active_only` at the
concrete database with the citizen assignee. -/
theorem assign_case_checks_witness :
    (((Svc.assignCase 1 2 9 100 svcAssignDb).1 = true
      ↔ assigneeOk svcAssignDb 2 = true) ∧
    (assigneeOk svcAssignDb 2 = false →
      Svc.assignCase 1 2 9 100 svcAssignDb = (false, svcAssignDb))) :=
  assign_case_checks_existence_and_active_only svcAssignDb 1 2 9 100 draftCase1 (by decide)

/-- Claim C7 (counterexample): on the concrete database the freshly
generated number CAS-20250101-0002 collides with an existing row (the
same-day rows are stored with id order opposite to sequence order), and
`create_case` surfaces the integrity error immediately after a single
sequence computation — the second component counts the computations —
with no retry and no distinct Conflict-after-retries outcome. -/
theorem collision_surfaces_without_retry :
    Svc.createCase "20250101" "20250101090000" 100 okCaseData 7 svcCollideDb
      = (Except.error Svc.SvcErr.integrityError, 1) := by
  rfl

/-- Claim C7 (amended): `create_case` runs the sequence computation
exactly once on every call, and when the generated number already
exists the insert fails and the error is re-raised at once — there is
no retry loop and no separate Conflict surfacing. -/
theorem create_case_generates_number_once :
    (∀ (today ts : String) (now : Nat) (d : Svc.CaseData) (creator_id : Nat)
      (db : Svc.DB), (Svc.createCase today ts now d creator_id db).2 = 1) ∧
    (∀ (today ts : String) (now : Nat) (d : Svc.CaseData) (creator_id : Nat)
      (db : Svc.DB), Svc.validateCaseData now d = true →
      db.case_files.any (fun c =>
        c.case_number == Svc.generateCaseNumber today ts db) = true →
      (Svc.createCase today ts now d creator_id db).1
        = Except.error Svc.SvcErr.integrityError) := by
  constructor
  · intro today ts now d creator_id db
    simp only [Svc.createCase]
    split
    · split
      · rfl
      · rfl
    · rfl
  · intro today ts now d creator_id db hval hdup
    simp [Svc.createCase, hval, hdup]

/-- Witness for `create_case_generates_number_once` at the concrete
colliding database. -/
theorem create_case_generates_number_once_witness :
    (Svc.createCase "20250101" "fb" 100 okCaseData 7 svcCollideDb).2 = 1 ∧
      Svc.validateCaseData 100 okCaseData = true ∧
      svcCollideDb.case_files.any (fun c =>
        c.case_number == Svc.generateCaseNumber "20250101" "fb" svcCollideDb) = true ∧
      (Svc.createCase "20250101" "fb" 100 okCaseData 7 svcCollideDb).1
        = Except.error Svc.SvcErr.integrityError :=
  ⟨create_case_generates_number_once.1 "20250101" "fb" 100 okCaseData 7 svcCollideDb,
   by rfl, by rfl,
   create_case_generates_number_once.2 "20250101" "fb" 100 okCaseData 7 svcCollideDb
     (by rfl) (by rfl)⟩

/-- Claim C1 (counterexample): on the concrete database the actor with a
role outside the five recognized ones owns case 1; `get_cases` returns
that row (the final `else` of the role dispatch filters by ownership
instead of denying) and `create_case` with default fields succeeds for
the same actor — so list and create do not deny unknown roles, and Case
rows are returned and created. -/
theorem unknown_role_list_returns_rows :
    Rt.getCases 0 100 none otherUser1 rtOtherDb = [rtOwnedCase1] ∧
      Rt.getCases 0 100 none otherUser1 rtOtherDb ≠ [] ∧
      isOkE (Rt.createCase ⟨"C-2", "nuevo", none, .pending, none⟩ otherUser1 rtOtherDb)
        = true := by
  refine ⟨by rfl, by decide, by rfl⟩

/-- Claim C1 (amended): for an actor whose role is none of the five
recognized ones, read (`get_case`) and update (`update_case`) are denied
with 403, but list (`get_cases`) behaves exactly as for a citizen —
returning the cases the actor owns — and create (`create_case`)
proceeds as for an unprivileged creator whenever the privileged fields
keep their defaults. -/
theorem unknown_role_access :
    (∀ (db : Rt.DB) (u : Rt.User) (case_id : Nat) (c : Rt.Case),
      u.role = .other → db.cases.find? (fun x => x.id == case_id) = some c →
      Rt.getCase case_id u db = .error .forbidden) ∧
    (∀ (db : Rt.DB) (u : Rt.User) (case_id : Nat) (d : Rt.CaseUpdate) (c : Rt.Case),
      u.role = .other → db.cases.find? (fun x => x.id == case_id) = some c →
      Rt.updateCase case_id d u db = .error .forbidden) ∧
    (∀ (skip limit : Nat) (sq : Option Rt.CaseStatus) (uid : Nat) (db : Rt.DB),
      Rt.getCases skip limit sq ⟨uid, .other⟩ db
        = Rt.getCases skip limit sq ⟨uid, .citizen⟩ db) ∧
    (∀ (db : Rt.DB) (u : Rt.User) (d : Rt.CaseCreate),
      u.role = .other → d.status = .pending → d.assigned_judge_id = none →
      db.cases.any (fun c => c.case_number == d.case_number) = false →
      isOkE (Rt.createCase d u db) = true) := by
  refine ⟨?_, ?_, ?_, ?_⟩
  · intro db u case_id c hrole hfind
    simp [Rt.getCase, hfind, hrole]
  · intro db u case_id d c hrole hfind
    simp [Rt.updateCase, hfind, Rt.updateAccess, hrole]
  · intro skip limit sq uid db
    rfl
  · intro db u d hrole hst haj hdup
    simp [Rt.createCase, hdup, Rt.canSetSensitive, hrole, hst, haj, isOkE]

/-- Witness for `unknown_role_access` at the concrete database. -/
theorem unknown_role_access_witness :
    Rt.getCase 1 otherUser1 rtOtherDb = .error .forbidden ∧
      Rt.updateCase 1 ⟨none, none, none, none⟩ otherUser1 rtOtherDb = .error .forbidden ∧
      Rt.getCases 0 100 none ⟨1, .other⟩ rtOtherDb
        = Rt.getCases 0 100 none ⟨1, .citizen⟩ rtOtherDb ∧
      isOkE (Rt.createCase ⟨"C-3", "nuevo", none, .pending, none⟩ otherUser1 rtOtherDb)
        = true :=
  ⟨unknown_role_access.1 rtOtherDb otherUser1 1 rtOwnedCase1 rfl (by decide),
   unknown_role_access.2.1 rtOtherDb otherUser1 1 ⟨none, none, none, none⟩ rtOwnedCase1
     rfl (by decide),
   unknown_role_access.2.2.1 0 100 none 1 rtOtherDb,
   unknown_role_access.2.2.2 rtOtherDb otherUser1 ⟨"C-3", "nuevo", none, .pending, none⟩
     rfl rfl rfl (by rfl)⟩

/-- Claim C5: a create request by a lawyer or citizen that sets the
status to a non-default value or names a judge is rejected with 403
before any insert: no Case row and no audit row are written (an error
result carries no database state), and the privileged field is never
silently downgraded, because the insert that would downgrade it is
never reached. -/
theorem privileged_create_rejected (db : Rt.DB) (u : Rt.User) (d : Rt.CaseCreate)
    (hrole : u.role = .lawyer ∨ u.role = .citizen)
    (hpriv : ¬ d.status = .pending ∨ ¬ d.assigned_judge_id = none)
    (hdup : db.cases.any (fun c => c.case_number == d.case_number) = false) :
    Rt.createCase d u db = .error .forbidden := by
  have hcan : Rt.canSetSensitive u.role = false := by
    rcases hrole with h | h <;> simp [Rt.canSetSensitive, h]
  rcases hpriv with h | h
  · simp [Rt.createCase, hdup, hcan, h]
  · by_cases hst : d.status = .pending
    · simp [Rt.createCase, hdup, hcan, hst, h]
    · simp [Rt.createCase, hdup, hcan, hst]

/-- Witness for `privileged_create_rejected`: the lawyer of spec
scenario 1 submitting an assigned judge. -/
theorem privileged_create_rejected_witness :
    (lawyerUser3.role = Rt.UserRole.lawyer ∨ lawyerUser3.role = .citizen) ∧
      Rt.createCase ⟨"C-9", "titulo", none, .pending, some 2⟩ lawyerUser3 rtOtherDb
        = .error .forbidden :=
  ⟨Or.inl rfl,
   privileged_create_rejected rtOtherDb lawyerUser3 ⟨"C-9", "titulo", none, .pending, some 2⟩
     (Or.inl rfl) (Or.inr (by decide)) (by rfl)⟩
